import Mathlib

set_option maxHeartbeats 1000000
set_option maxRecDepth 100000

/-!
Shallow embedding of the DeployBot pipeline (src/build_mvp_website.py,
src/main.py, src/github_utils.py) and proofs about its claimed behaviour.

External effects (the completion API, the sandbox command runner, the Git and
GitHub operations) are modelled as oracles: functions supplied as parameters
that return the outcome each external call would have produced.  The control
flow around those calls is transcribed from the Python source.
-/

namespace DeployBot

/-- Mirrors the Pydantic model FileDescription of build_mvp_website.py:
a file name, a description, and an optional importance rank (missing keys
parse to none, but a present importance key is parsed and kept). -/
structure FileDescription where
  file_name : String
  description : String
  importance : Option Int := none
deriving Repr, DecidableEq

/-- The two file names that define_website_structure forces into every manifest. -/
def essential_files : List String := ["app.py", "requirements.txt"]

/-- The default description define_website_structure gives an appended essential file. -/
def essential_description (name : String) : String :=
  "This is the " ++ name ++ " file for the app."

/-- The loop of define_website_structure that appends each essential file missing
from the parsed manifest.  The Python loop appends in place, so the membership
check for the second essential file sees the first append; foldl models that. -/
def ensure_essential (fds : List FileDescription) : List FileDescription :=
  essential_files.foldl
    (fun acc ef =>
      if acc.any (fun f => f.file_name == ef) then acc
      else acc ++ [{ file_name := ef, description := essential_description ef }])
    fds

/-- The rank_map dict comprehension of define_website_structure: for duplicate
file names in the ranking response the later entry overwrites the earlier one. -/
def rank_map (rankings : List (String × Int)) (name : String) : Option Int :=
  (rankings.reverse.find? (fun p => p.1 == name)).map Prod.snd

/-- The per-file importance update of define_website_structure: a file whose name
is in rank_map gets that importance, any other file is left unchanged. -/
def apply_rank (rankings : List (String × Int)) (f : FileDescription) : FileDescription :=
  match rank_map rankings f.file_name with
  | some r => { f with importance := some r }
  | none => f

/-- The sort key of define_website_structure: the importance when set, 999 otherwise. -/
def sort_key (f : FileDescription) : Int :=
  match f.importance with
  | some r => r
  | none => 999

/-- define_website_structure after its two completion responses have been parsed:
manifest is the list parsed from the first response, rankings the
(file_name, importance) pairs parsed from the second.  Missing essential files
are appended, importances are applied, and the list is sorted stably by the
sort key, exactly as the Python list.sort with that key does. -/
def define_website_structure (manifest : List FileDescription)
    (rankings : List (String × Int)) : List FileDescription :=
  ((ensure_essential manifest).map (apply_rank rankings)).mergeSort
    (fun a b => sort_key a ≤ sort_key b)

lemma apply_rank_file_name (rankings : List (String × Int)) (f : FileDescription) :
    (apply_rank rankings f).file_name = f.file_name := by
  unfold apply_rank
  cases rank_map rankings f.file_name <;> rfl

lemma apply_rank_description (rankings : List (String × Int)) (f : FileDescription) :
    (apply_rank rankings f).description = f.description := by
  unfold apply_rank
  cases rank_map rankings f.file_name <;> rfl

lemma ensure_essential_eq (fds : List FileDescription) :
    ensure_essential fds =
      (let s1 := if fds.any (fun f => f.file_name == "app.py") then fds
        else fds ++ [{ file_name := "app.py",
                       description := essential_description "app.py" }]
       if s1.any (fun f => f.file_name == "requirements.txt") then s1
       else s1 ++ [{ file_name := "requirements.txt",
                     description := essential_description "requirements.txt" }]) := by
  rfl

lemma ensure_essential_has (fds : List FileDescription) (name : String)
    (hname : name ∈ essential_files) :
    ∃ f ∈ ensure_essential fds, f.file_name = name ∧
      ((∀ g ∈ fds, g.file_name ≠ name) → f.description = essential_description name) := by
  have hcases : name = "app.py" ∨ name = "requirements.txt" := by
    simpa [essential_files] using hname
  rw [ensure_essential_eq]
  rcases hcases with h | h
  · subst h
    by_cases h1 : fds.any (fun f => f.file_name == "app.py") = true
    · obtain ⟨g, hg, hgname⟩ := List.any_eq_true.mp h1
      refine ⟨g, ?_, by simpa using hgname, ?_⟩
      · simp only [h1, if_true]
        split
        · exact hg
        · exact List.mem_append_left _ hg
      · intro hall
        exact absurd (by simpa using hgname) (hall g hg)
    · refine ⟨{ file_name := "app.py", description := essential_description "app.py" }, ?_, rfl, fun _ => rfl⟩
      simp only [h1, if_false, Bool.false_eq_true]
      split
      · exact List.mem_append_right _ (by simp)
      · exact List.mem_append_left _ (List.mem_append_right _ (by simp))
  · subst h
    set s1 := if fds.any (fun f => f.file_name == "app.py") then fds
      else fds ++ [{ file_name := "app.py",
                     description := essential_description "app.py" }] with hs1
    by_cases h1 : s1.any (fun f => f.file_name == "requirements.txt") = true
    · obtain ⟨g, hg, hgname⟩ := List.any_eq_true.mp h1
      refine ⟨g, ?_, by simpa using hgname, ?_⟩
      · simp only [h1, if_true]
        exact hg
      · intro hall
        have hgfds : g ∈ fds := by
          rw [hs1] at hg
          split at hg
          · exact hg
          · rcases List.mem_append.mp hg with h | h
            · exact h
            · exfalso
              simp only [List.mem_singleton] at h
              subst h
              simp at hgname
        exact absurd (by simpa using hgname) (hall g hgfds)
    · refine ⟨{ file_name := "requirements.txt",
                description := essential_description "requirements.txt" }, ?_, rfl, fun _ => rfl⟩
      simp only [h1, if_false, Bool.false_eq_true]
      exact List.mem_append_right _ (by simp)

/-- C2: for every manifest parsed from the first completion response, the list
returned by define_website_structure contains an entry named app.py and an
entry named requirements.txt, and when either name is missing from the parsed
manifest the returned entry carries the default description that the code
appends before returning. -/
theorem c2_essential_files_always_present (manifest : List FileDescription)
    (rankings : List (String × Int)) :
    (∃ f ∈ define_website_structure manifest rankings, f.file_name = "app.py") ∧
    (∃ f ∈ define_website_structure manifest rankings, f.file_name = "requirements.txt") ∧
    ((∀ g ∈ manifest, g.file_name ≠ "app.py") →
      ∃ f ∈ define_website_structure manifest rankings,
        f.file_name = "app.py" ∧ f.description = essential_description "app.py") ∧
    ((∀ g ∈ manifest, g.file_name ≠ "requirements.txt") →
      ∃ f ∈ define_website_structure manifest rankings,
        f.file_name = "requirements.txt" ∧
          f.description = essential_description "requirements.txt") := by
  have mem_result : ∀ f, f ∈ ensure_essential manifest →
      apply_rank rankings f ∈ define_website_structure manifest rankings := by
    intro f hf
    unfold define_website_structure
    rw [List.mem_mergeSort]
    exact List.mem_map_of_mem _ hf
  obtain ⟨fa, hfa, hfaname, hfadesc⟩ :=
    ensure_essential_has manifest "app.py" (by simp [essential_files])
  obtain ⟨fr, hfr, hfrname, hfrdesc⟩ :=
    ensure_essential_has manifest "requirements.txt" (by simp [essential_files])
  refine ⟨⟨apply_rank rankings fa, mem_result fa hfa, ?_⟩,
          ⟨apply_rank rankings fr, mem_result fr hfr, ?_⟩, ?_, ?_⟩
  · rw [apply_rank_file_name]; exact hfaname
  · rw [apply_rank_file_name]; exact hfrname
  · intro hall
    exact ⟨apply_rank rankings fa, mem_result fa hfa,
      by rw [apply_rank_file_name]; exact hfaname,
      by rw [apply_rank_description]; exact hfadesc hall⟩
  · intro hall
    exact ⟨apply_rank rankings fr, mem_result fr hfr,
      by rw [apply_rank_file_name]; exact hfrname,
      by rw [apply_rank_description]; exact hfrdesc hall⟩

/-- C2 witness: instantiated at the empty manifest and empty ranking list. -/
theorem c2_essential_files_always_present_witness :
    ∃ f ∈ define_website_structure [] [], f.file_name = "app.py" ∧
      f.description = essential_description "app.py" :=
  (c2_essential_files_always_present [] []).2.2.1 (by intro g hg; simp at hg)

lemma sorted_define_website_structure (manifest : List FileDescription)
    (rankings : List (String × Int)) :
    (define_website_structure manifest rankings).Pairwise
      (fun a b => sort_key a ≤ sort_key b) := by
  unfold define_website_structure
  have h := @List.sorted_mergeSort FileDescription
    (fun a b : FileDescription => decide (sort_key a ≤ sort_key b))
    (by intro a b c hab hbc
        simp only [decide_eq_true_eq] at *
        omega)
    (by intro a b
        simp only [Bool.or_eq_true, decide_eq_true_eq]
        omega)
    ((ensure_essential manifest).map (apply_rank rankings))
  exact h.imp (fun hab => by simpa using hab)

/-- C5 counterexample: when the first response itself carries an importance
value (the parser accepts one), a file absent from the ranking response keeps
that parsed importance rather than importance None.  Here app.py does not
appear in the (empty) ranking response, yet its importance in the returned
list is 5, not None. -/
theorem c5_counterexample_parsed_importance_kept :
    rank_map [] "app.py" = none ∧
    ∃ f ∈ define_website_structure
        [{ file_name := "app.py", description := "d", importance := some 5 }] [],
      f.file_name = "app.py" ∧ f.importance = some 5 := by
  have hlist : ((ensure_essential
      [{ file_name := "app.py", description := "d", importance := some 5 }]).map
        (apply_rank [])) =
      [{ file_name := "app.py", description := "d", importance := some 5 },
       { file_name := "requirements.txt",
         description := essential_description "requirements.txt",
         importance := none }] := by
    decide
  have hsorted : (define_website_structure
      [{ file_name := "app.py", description := "d", importance := some 5 }] []) =
      [{ file_name := "app.py", description := "d", importance := some 5 },
       { file_name := "requirements.txt",
         description := essential_description "requirements.txt",
         importance := none }] := by
    unfold define_website_structure
    rw [hlist]
    exact List.mergeSort_of_sorted (by decide)
  refine ⟨rfl, ?_⟩
  rw [hsorted]
  exact ⟨{ file_name := "app.py", description := "d", importance := some 5 },
    by simp, rfl, rfl⟩

/-- C5 amended: define_website_structure returns a permutation of the
rank-updated manifest, sorted in ascending order of the sort key (the
importance when set, 999 when None, so files with importance None sort with
key 999); a file named in the ranking response gets the mapped importance,
and every file whose name does not appear in the ranking response keeps the
importance parsed from the first response (None when that response did not
supply one, in particular for the appended essential files). -/
theorem c5_ranking_and_sort (manifest : List FileDescription)
    (rankings : List (String × Int)) :
    (define_website_structure manifest rankings).Perm
      ((ensure_essential manifest).map (apply_rank rankings)) ∧
    (define_website_structure manifest rankings).Pairwise
      (fun a b => sort_key a ≤ sort_key b) ∧
    (∀ f ∈ ensure_essential manifest, rank_map rankings f.file_name = none →
      f ∈ define_website_structure manifest rankings) ∧
    (∀ f ∈ ensure_essential manifest, ∀ r, rank_map rankings f.file_name = some r →
      { f with importance := some r } ∈ define_website_structure manifest rankings) := by
  refine ⟨List.mergeSort_perm _ _, sorted_define_website_structure manifest rankings,
    ?_, ?_⟩
  · intro f hf hnone
    unfold define_website_structure
    rw [List.mem_mergeSort]
    have : apply_rank rankings f = f := by
      unfold apply_rank
      rw [hnone]
    rw [← this]
    exact List.mem_map_of_mem _ hf
  · intro f hf r hr
    unfold define_website_structure
    rw [List.mem_mergeSort]
    have : apply_rank rankings f = { f with importance := some r } := by
      unfold apply_rank
      rw [hr]
    rw [← this]
    exact List.mem_map_of_mem _ hf

/-- C5 witness: the unranked-file clause of the amended claim, applied at a
concrete manifest and an empty ranking response. -/
theorem c5_ranking_and_sort_witness :
    ({ file_name := "a.txt", description := "d", importance := none } :
      FileDescription) ∈ define_website_structure
        [{ file_name := "a.txt", description := "d", importance := none }] [] :=
  (c5_ranking_and_sort
      [{ file_name := "a.txt", description := "d", importance := none }] []).2.2.1
    { file_name := "a.txt", description := "d", importance := none }
    (by decide) rfl

/-- A chat message as passed to the completion API. -/
structure Message where
  role : String
  content : String
deriving Repr, DecidableEq

/-- The system prompt used by generate_file_content, generate_website_in_sandbox
and regenerate_file_with_error. -/
def code_gen_system_content : String :=
  "You are a code generation assistant. ALWAYS output ONLY valid, runnable code. DO NOT include explanations, markdown formatting, backticks, or extra text. No introductions, summaries, or additional commentary."

/-- Fixed closing text shared by all three generate_file_content prompts. -/
def output_only_tail : String :=
  "ALWAYS output ONLY valid, runnable code. DO NOT include explanations, markdown formatting, backticks, or extra text. No introductions, summaries, or additional commentary.\n            "

/-- Fixed template pieces of the generate_file_content prompts, around the
file name, the file description and the website description. -/
def user_prompt_piece_1 : String := "\n            Please write the file "

def user_prompt_piece_2 : String := " with the following description:\n            "

def user_prompt_piece_3 : String :=
  "\n            \n            The website description is:\n            "

def user_prompt_piece_4 : String := "\n            \n            "

/-- The common opening of the three generate_file_content prompts. -/
def user_prompt_intro (name desc wd : String) : String :=
  user_prompt_piece_1 ++ name ++ user_prompt_piece_2 ++ desc ++
    user_prompt_piece_3 ++ wd ++ user_prompt_piece_4

/-- The extra constraint block that only a file named app.py receives. -/
def app_py_constraints : String :=
  "IMPORTANT CONSTRAINTS:\n            1. Make sure the Flask app is properly configured to run on all interfaces (0.0.0.0)\n            2. Set debug=True during development\n            3. Include error handlers for common HTTP errors\n            4. Wrap route handlers in try/except blocks to prevent unhandled exceptions\n            \n            "

/-- The extra constraint block that only a file named requirements.txt receives. -/
def requirements_constraints : String :=
  "IMPORTANT CONSTRAINTS:\n            1. Include only the absolute minimum required dependencies\n            2. DO NOT include version numbers for any package\n            3. Each dependency should be on its own line with no version constraints\n            4. Include only well-established, widely-used packages\n            5. Ensure necessary dependencies are included for the app to run such as flask, gunicorn, etc.\n            \n            "

/-- The user prompt built by generate_file_content: the app.py branch, the
requirements.txt branch, and the generic branch for every other file name. -/
def generate_file_content_user_prompt (fd : FileDescription) (wd : String) : String :=
  if fd.file_name = "app.py" then
    user_prompt_intro fd.file_name fd.description wd ++ app_py_constraints ++
      output_only_tail
  else if fd.file_name = "requirements.txt" then
    user_prompt_intro fd.file_name fd.description wd ++ requirements_constraints ++
      output_only_tail
  else
    user_prompt_intro fd.file_name fd.description wd ++ output_only_tail

/-- Whether the character list pat begins the character list s. -/
def beginsWith : List Char → List Char → Bool
  | _, [] => true
  | [], _ :: _ => false
  | c :: cs, p :: ps => c == p && beginsWith cs ps

/-- Whether the character list pat occurs anywhere inside s. -/
def occursIn (pat : List Char) : List Char → Bool
  | [] => beginsWith [] pat
  | c :: cs => beginsWith (c :: cs) pat || occursIn pat cs

/-- Whether the string pat occurs as a contiguous substring of s. -/
def strContains (s pat : String) : Bool := occursIn pat.data s.data

/-- The marker line that opens both special-case constraint blocks. -/
def constraints_marker : String := "IMPORTANT CONSTRAINTS"

/-- C6: generate_file_content applies extra constraints for exactly the two
hard-coded file names: a file named app.py gets the interface-binding, debug
and error-handler constraint block, a file named requirements.txt gets the
minimal-unversioned-dependencies constraint block, and every other file name
gets the generic prompt, whose fixed template text contains no constraint
block at all. -/
theorem c6_special_case_prompts (fd : FileDescription) (wd : String) :
    (fd.file_name = "app.py" →
      generate_file_content_user_prompt fd wd =
        user_prompt_intro fd.file_name fd.description wd ++ app_py_constraints ++
          output_only_tail) ∧
    (fd.file_name = "requirements.txt" →
      generate_file_content_user_prompt fd wd =
        user_prompt_intro fd.file_name fd.description wd ++
          requirements_constraints ++ output_only_tail) ∧
    (fd.file_name ≠ "app.py" → fd.file_name ≠ "requirements.txt" →
      generate_file_content_user_prompt fd wd =
        user_prompt_intro fd.file_name fd.description wd ++ output_only_tail) ∧
    strContains app_py_constraints constraints_marker = true ∧
    strContains requirements_constraints constraints_marker = true ∧
    strContains
      (user_prompt_piece_1 ++ user_prompt_piece_2 ++ user_prompt_piece_3 ++
        user_prompt_piece_4 ++ output_only_tail) constraints_marker = false := by
  refine ⟨?_, ?_, ?_, by decide, by decide, by decide⟩
  · intro h
    simp [generate_file_content_user_prompt, h]
  · intro h
    have hne : fd.file_name ≠ "app.py" := by
      rw [h]; decide
    simp [generate_file_content_user_prompt, h, hne]
  · intro h1 h2
    simp [generate_file_content_user_prompt, h1, h2]

/-- C6 witness: the app.py branch of the theorem at a concrete file description. -/
theorem c6_special_case_prompts_witness :
    generate_file_content_user_prompt
        { file_name := "app.py", description := "d" } "w" =
      user_prompt_intro "app.py" "d" "w" ++ app_py_constraints ++ output_only_tail :=
  (c6_special_case_prompts { file_name := "app.py", description := "d" } "w").1 rfl

/-- Fixed template pieces of the regenerate_file_with_error user prompt. -/
def regen_prompt_piece_1 : String := "\n        The file "

def regen_prompt_piece_2 : String :=
  " needs to be fixed. When trying to use it, the following error occurred:\n        \n        ERROR: "

def regen_prompt_piece_3 : String :=
  "\n        \n        Current file content:\n        "

def regen_prompt_piece_4 : String :=
  "\n        \n        Please fix the file and provide the corrected version. ALWAYS output ONLY valid, runnable code. DO NOT include explanations, markdown formatting, backticks, or extra text. No introductions, summaries, or additional commentary.\n        "

/-- The user prompt built by regenerate_file_with_error from the file name, the
error text and the current file content. -/
def regen_user_prompt (name err current : String) : String :=
  regen_prompt_piece_1 ++ name ++ regen_prompt_piece_2 ++ err ++
    regen_prompt_piece_3 ++ current ++ regen_prompt_piece_4

/-- The message list regenerate_file_with_error sends: current is the sandbox
content of the file when the read succeeded, none when it raised (the code then
keeps the initial empty string).  The list is built fresh: the system prompt
and the single user prompt, with no prior conversation history. -/
def regenerate_file_with_error_messages (name err : String)
    (current : Option String) : List Message :=
  [{ role := "system", content := code_gen_system_content },
   { role := "user", content := regen_user_prompt name err (current.getD "") }]

/-- C4: every regeneration builds a fresh two-message list, the system prompt
followed by one user prompt; that user prompt contains the prior error text,
and contains the current sandbox content of the file whenever the file was
readable. -/
theorem c4_regeneration_prompt (name err : String) (current : Option String) :
    (regenerate_file_with_error_messages name err current).length = 2 ∧
    (regenerate_file_with_error_messages name err current).head? =
      some { role := "system", content := code_gen_system_content } ∧
    ∃ p, (regenerate_file_with_error_messages name err current).getLast? =
        some { role := "user", content := p } ∧
      (∃ a b, p = a ++ err ++ b) ∧
      (∀ c, current = some c → ∃ a b, p = a ++ c ++ b) := by
  refine ⟨rfl, rfl, regen_user_prompt name err (current.getD ""), rfl, ?_, ?_⟩
  · refine ⟨regen_prompt_piece_1 ++ name ++ regen_prompt_piece_2,
      regen_prompt_piece_3 ++ current.getD "" ++ regen_prompt_piece_4, ?_⟩
    simp [regen_user_prompt, String.append_assoc]
  · intro c hc
    subst hc
    refine ⟨regen_prompt_piece_1 ++ name ++ regen_prompt_piece_2 ++ err ++
      regen_prompt_piece_3, regen_prompt_piece_4, ?_⟩
    simp [regen_user_prompt, String.append_assoc]

/-- C4 witness: the readable-content clause at a concrete file, error and content. -/
theorem c4_regeneration_prompt_witness :
    ∃ p, (regenerate_file_with_error_messages "app.py" "boom"
        (some "old")).getLast? = some { role := "user", content := p } ∧
      ∃ a b, p = a ++ "old" ++ b := by
  obtain ⟨-, -, p, hp, -, hcur⟩ :=
    c4_regeneration_prompt "app.py" "boom" (some "old")
  exact ⟨p, hp, hcur "old" rfl⟩

/-- The sandbox filesystem as seen through sandbox.files: path to content. -/
abbrev Files : Type := List (String × String)

/-- sandbox.files.write: overwrite the entry at the path, or add it. -/
def files_write (fs : Files) (path content : String) : Files :=
  if fs.any (fun p => p.1 == path) then
    fs.map (fun p => if p.1 == path then (path, content) else p)
  else fs ++ [(path, content)]

/-- Observable events of run_website_in_sandbox: one per pip-install attempt,
one per gunicorn or Flask server-start attempt, one per call to
regenerate_file_with_error, and one per sandbox file write of regenerated
content. -/
inductive Event where
  | installAttempt
  | gunicornStartAttempt
  | flaskStartAttempt
  | regenAttempt (name : String)
  | fileWrite (path content : String)
deriving Repr, DecidableEq

/-- Oracles for the external calls of run_website_in_sandbox: each attempt of a
retry loop either succeeds (none) or raises with an error text (some), possibly
depending on the attempt index and the current sandbox files; regen gives the
content regenerate_file_with_error returns for a file name and error text, with
none when the completion call raised. -/
structure RunEnv where
  installResult : Nat → Files → Option String
  gunicornStartResult : Nat → Files → Option String
  flaskStartResult : Nat → Files → Option String
  regen : String → String → Files → Option String

/-- The max_retries constant of run_website_in_sandbox. -/
def max_retries : Nat := 3

/-- Result of one retry loop: the sandbox files, the event trace, how many
attempts were made, and ok for break versus error for the re-raised exception. -/
structure LoopResult where
  files : Files
  trace : List Event
  attempts : Nat
  outcome : Except String Unit

/-- Constants distinguishing the three textually identical retry loops of
run_website_in_sandbox: the attempt event, the file regenerated on failure,
and the sandbox path that regenerated content is written to. -/
structure LoopCfg where
  attemptEvent : Event
  regenTarget : String
  writePath : String

/-- The retry loop shape shared by the three loops of run_website_in_sandbox:
while retry_count is below max_retries, attempt; on success break; on failure
increment retry_count, re-raise when the budget is spent, otherwise call
regenerate_file_with_error and overwrite the target file only when the
regenerated content is truthy (not none and not empty).  fuel is only the
structural-recursion measure; run_website_in_sandbox starts it at max_retries,
which the loop never exhausts while the while-condition still holds. -/
def retryLoop (attemptResult : Nat → Files → Option String)
    (regen : String → String → Files → Option String) (cfg : LoopCfg) :
    Nat → Nat → Files → List Event → Nat → LoopResult
  | 0, _, files, trace, attempts => ⟨files, trace, attempts, Except.ok ()⟩
  | fuel + 1, retry_count, files, trace, attempts =>
    if retry_count < max_retries then
      match attemptResult retry_count files with
      | none => ⟨files, trace ++ [cfg.attemptEvent], attempts + 1, Except.ok ()⟩
      | some err =>
        if max_retries ≤ retry_count + 1 then
          ⟨files, trace ++ [cfg.attemptEvent], attempts + 1, Except.error err⟩
        else
          match regen cfg.regenTarget err files with
          | some c =>
            if c = "" then
              retryLoop attemptResult regen cfg fuel (retry_count + 1) files
                (trace ++ [cfg.attemptEvent, Event.regenAttempt cfg.regenTarget])
                (attempts + 1)
            else
              retryLoop attemptResult regen cfg fuel (retry_count + 1)
                (files_write files cfg.writePath c)
                (trace ++ [cfg.attemptEvent, Event.regenAttempt cfg.regenTarget,
                  Event.fileWrite cfg.writePath c])
                (attempts + 1)
          | none =>
            retryLoop attemptResult regen cfg fuel (retry_count + 1) files
              (trace ++ [cfg.attemptEvent, Event.regenAttempt cfg.regenTarget])
              (attempts + 1)
    else ⟨files, trace, attempts, Except.ok ()⟩

/-- The requirements-installation retry loop of run_website_in_sandbox. -/
def installLoop (env : RunEnv) : Nat → Nat → Files → List Event → Nat → LoopResult :=
  retryLoop env.installResult env.regen
    ⟨Event.installAttempt, "requirements.txt", "/home/user/requirements.txt"⟩

/-- The gunicorn server-start retry loop (the public_access branch). -/
def gunicornLoop (env : RunEnv) : Nat → Nat → Files → List Event → Nat → LoopResult :=
  retryLoop env.gunicornStartResult env.regen
    ⟨Event.gunicornStartAttempt, "app.py", "/home/user/app.py"⟩

/-- The Flask development-server retry loop (the non-public branch). -/
def flaskLoop (env : RunEnv) : Nat → Nat → Files → List Event → Nat → LoopResult :=
  retryLoop env.flaskStartResult env.regen
    ⟨Event.flaskStartAttempt, "app.py", "/home/user/app.py"⟩

/-- Result of run_website_in_sandbox: final files, full event trace, whether
the install loop succeeded, the attempt counts of the two phases, and ok for a
normal return versus error for the exception that makes the outer handler
return None. -/
structure RunResult where
  files : Files
  trace : List Event
  installOk : Bool
  installAttempts : Nat
  serverAttempts : Nat
  outcome : Except String Unit

/-- run_website_in_sandbox: the requirements-install retry loop, then exactly
one of the two server-start retry loops, selected by public_access. -/
def run_website_in_sandbox (env : RunEnv) (public_access : Bool)
    (files : Files) : RunResult :=
  let ir := installLoop env max_retries 0 files [] 0
  match ir.outcome with
  | Except.error e => ⟨ir.files, ir.trace, false, ir.attempts, 0, Except.error e⟩
  | Except.ok _ =>
    let sr :=
      if public_access then gunicornLoop env max_retries 0 ir.files ir.trace 0
      else flaskLoop env max_retries 0 ir.files ir.trace 0
    ⟨sr.files, sr.trace, true, ir.attempts, sr.attempts, sr.outcome⟩

/-- Whether an event records a regenerate_file_with_error call. -/
def isRegenEvent : Event → Bool
  | Event.regenAttempt _ => true
  | _ => false

/-- Number of regenerate_file_with_error calls recorded in a trace. -/
def regenCount (t : List Event) : Nat := (t.filter isRegenEvent).length

lemma regenCount_append (s t : List Event) :
    regenCount (s ++ t) = regenCount s + regenCount t := by
  simp [regenCount, List.filter_append]

lemma isRegenEvent_regenAttempt (n : String) :
    isRegenEvent (Event.regenAttempt n) = true := rfl

lemma isRegenEvent_fileWrite (p c : String) :
    isRegenEvent (Event.fileWrite p c) = false := rfl

lemma retryLoop_attempts_le (ar : Nat → Files → Option String)
    (rg : String → String → Files → Option String) (cfg : LoopCfg) :
    ∀ fuel rc files trace a,
      (retryLoop ar rg cfg fuel rc files trace a).attempts ≤ a + fuel := by
  intro fuel
  induction fuel with
  | zero =>
    intro rc files trace a
    simp [retryLoop]
  | succ n ih =>
    intro rc files trace a
    simp only [retryLoop]
    split
    · split
      · simp
      · split
        · simp
        · split
          · split
            · exact (ih (rc + 1) files _ (a + 1)).trans (by omega)
            · exact (ih (rc + 1) _ _ (a + 1)).trans (by omega)
          · exact (ih (rc + 1) files _ (a + 1)).trans (by omega)
    · simp

lemma retryLoop_trace_mono (ar : Nat → Files → Option String)
    (rg : String → String → Files → Option String) (cfg : LoopCfg) :
    ∀ fuel rc files trace a, ∀ ev, ev ∈ trace →
      ev ∈ (retryLoop ar rg cfg fuel rc files trace a).trace := by
  intro fuel
  induction fuel with
  | zero =>
    intro rc files trace a ev hev
    simpa [retryLoop] using hev
  | succ n ih =>
    intro rc files trace a ev hev
    simp only [retryLoop]
    split
    · split
      · exact List.mem_append_left _ hev
      · split
        · exact List.mem_append_left _ hev
        · split
          · split
            · refine ih (rc + 1) _ _ (a + 1) ev ?_
              exact List.mem_append_left _ hev
            · refine ih (rc + 1) _ _ (a + 1) ev ?_
              exact List.mem_append_left _ hev
          · refine ih (rc + 1) _ _ (a + 1) ev ?_
            exact List.mem_append_left _ hev
    · exact hev

lemma retryLoop_trace_events (ar : Nat → Files → Option String)
    (rg : String → String → Files → Option String) (cfg : LoopCfg) :
    ∀ fuel rc files trace a, ∀ ev,
      ev ∈ (retryLoop ar rg cfg fuel rc files trace a).trace →
      ev ∈ trace ∨ ev = cfg.attemptEvent ∨
        ev = Event.regenAttempt cfg.regenTarget ∨
        ∃ c err f0, ev = Event.fileWrite cfg.writePath c ∧ c ≠ "" ∧
          rg cfg.regenTarget err f0 = some c := by
  intro fuel
  induction fuel with
  | zero =>
    intro rc files trace a ev hev
    simp [retryLoop] at hev
    exact Or.inl hev
  | succ n ih =>
    intro rc files trace a ev hev
    simp only [retryLoop] at hev
    split at hev
    · split at hev
      · simp only [List.mem_append, List.mem_singleton] at hev
        rcases hev with h | h
        · exact Or.inl h
        · exact Or.inr (Or.inl h)
      · split at hev
        · simp only [List.mem_append, List.mem_singleton] at hev
          rcases hev with h | h
          · exact Or.inl h
          · exact Or.inr (Or.inl h)
        · rename_i herr hbudget
          split at hev
          · rename_i c hregen
            split at hev
            · rcases ih _ _ _ _ ev hev with h | h | h | h
              · simp only [List.mem_append, List.mem_cons, List.mem_singleton,
                  List.not_mem_nil, or_false] at h
                rcases h with h | h | h
                · exact Or.inl h
                · exact Or.inr (Or.inl h)
                · exact Or.inr (Or.inr (Or.inl h))
              · exact Or.inr (Or.inl h)
              · exact Or.inr (Or.inr (Or.inl h))
              · exact Or.inr (Or.inr (Or.inr h))
            · rename_i hcne
              rcases ih _ _ _ _ ev hev with h | h | h | h
              · simp only [List.mem_append, List.mem_cons, List.mem_singleton,
                  List.not_mem_nil, or_false] at h
                rcases h with h | h | h | h
                · exact Or.inl h
                · exact Or.inr (Or.inl h)
                · exact Or.inr (Or.inr (Or.inl h))
                · exact Or.inr (Or.inr (Or.inr ⟨c, _, _, h, hcne, hregen⟩))
              · exact Or.inr (Or.inl h)
              · exact Or.inr (Or.inr (Or.inl h))
              · exact Or.inr (Or.inr (Or.inr h))
          · rcases ih _ _ _ _ ev hev with h | h | h | h
            · simp only [List.mem_append, List.mem_cons, List.mem_singleton,
                List.not_mem_nil, or_false] at h
              rcases h with h | h | h
              · exact Or.inl h
              · exact Or.inr (Or.inl h)
              · exact Or.inr (Or.inr (Or.inl h))
            · exact Or.inr (Or.inl h)
            · exact Or.inr (Or.inr (Or.inl h))
            · exact Or.inr (Or.inr (Or.inr h))
    · exact Or.inl hev

lemma retryLoop_files_unchanged (ar : Nat → Files → Option String)
    (rg : String → String → Files → Option String) (cfg : LoopCfg)
    (h : ∀ n e f, rg n e f = none ∨ rg n e f = some "") :
    ∀ fuel rc files trace a,
      (retryLoop ar rg cfg fuel rc files trace a).files = files := by
  intro fuel
  induction fuel with
  | zero =>
    intro rc files trace a
    simp [retryLoop]
  | succ n ih =>
    intro rc files trace a
    simp only [retryLoop]
    split
    · split
      · rfl
      · split
        · rfl
        · split
          · rename_i c hregen
            split
            · exact ih (rc + 1) files _ (a + 1)
            · rename_i hcne
              exfalso
              rcases h cfg.regenTarget _ files with h1 | h1 <;>
                rw [h1] at hregen
              · exact Option.noConfusion hregen
              · exact hcne (Option.some.inj hregen).symm
          · exact ih (rc + 1) files _ (a + 1)
    · rfl

lemma retryLoop_attempt_mem (ar : Nat → Files → Option String)
    (rg : String → String → Files → Option String) (cfg : LoopCfg)
    (fuel rc : Nat) (files : Files) (trace : List Event) (a : Nat)
    (hfuel : 0 < fuel) (hrc : rc < max_retries) :
    cfg.attemptEvent ∈ (retryLoop ar rg cfg fuel rc files trace a).trace := by
  obtain ⟨n, rfl⟩ : ∃ n, fuel = n + 1 := ⟨fuel - 1, by omega⟩
  simp only [retryLoop]
  rw [if_pos hrc]
  split
  · simp
  · split
    · simp
    · split
      · split
        · refine retryLoop_trace_mono ar rg cfg n (rc + 1) _ _ (a + 1)
            cfg.attemptEvent ?_
          simp
        · refine retryLoop_trace_mono ar rg cfg n (rc + 1) _ _ (a + 1)
            cfg.attemptEvent ?_
          simp
      · refine retryLoop_trace_mono ar rg cfg n (rc + 1) _ _ (a + 1)
          cfg.attemptEvent ?_
        simp

lemma retryLoop_all_fail (ar : Nat → Files → Option String)
    (rg : String → String → Files → Option String) (cfg : LoopCfg)
    (H : ∀ k f, ar k f ≠ none) (hA : isRegenEvent cfg.attemptEvent = false) :
    ∀ fuel rc files trace a, rc + fuel = max_retries → 0 < fuel →
      ∃ e, (retryLoop ar rg cfg fuel rc files trace a).outcome = Except.error e ∧
        (retryLoop ar rg cfg fuel rc files trace a).attempts = a + fuel ∧
        regenCount (retryLoop ar rg cfg fuel rc files trace a).trace =
          regenCount trace + (fuel - 1) := by
  intro fuel
  induction fuel with
  | zero =>
    intro rc files trace a hsum hpos
    omega
  | succ n ih =>
    intro rc files trace a hsum hpos
    have hrc : rc < max_retries := by
      unfold max_retries at *
      omega
    obtain ⟨e, he⟩ := Option.ne_none_iff_exists'.mp (H rc files)
    simp only [retryLoop]
    rw [if_pos hrc]
    simp only [he]
    by_cases hb : max_retries ≤ rc + 1
    · have hn : n = 0 := by
        unfold max_retries at *
        omega
      subst hn
      rw [if_pos hb]
      refine ⟨e, rfl, rfl, ?_⟩
      simp [regenCount_append, regenCount, List.filter_cons, List.filter_nil,
        hA, isRegenEvent_regenAttempt, isRegenEvent_fileWrite]
    · rw [if_neg hb]
      have hn : 0 < n := by
        unfold max_retries at *
        omega
      have hsum2 : (rc + 1) + n = max_retries := by omega
      have hsmall : regenCount (trace ++ [cfg.attemptEvent,
          Event.regenAttempt cfg.regenTarget]) = regenCount trace + 1 := by
        simp [regenCount_append, regenCount, List.filter_cons, List.filter_nil,
          hA, isRegenEvent_regenAttempt, isRegenEvent_fileWrite]
      split
      · rename_i c hregen
        split
        · obtain ⟨e2, h1, h2, h3⟩ := ih (rc + 1) files
            (trace ++ [cfg.attemptEvent, Event.regenAttempt cfg.regenTarget])
            (a + 1) hsum2 hn
          exact ⟨e2, h1, by omega, by omega⟩
        · have hsmall3 : regenCount (trace ++ [cfg.attemptEvent,
              Event.regenAttempt cfg.regenTarget,
              Event.fileWrite cfg.writePath c]) = regenCount trace + 1 := by
            simp [regenCount_append, regenCount, List.filter_cons,
              List.filter_nil, hA, isRegenEvent_regenAttempt, isRegenEvent_fileWrite]
          obtain ⟨e2, h1, h2, h3⟩ := ih (rc + 1) (files_write files cfg.writePath c)
            (trace ++ [cfg.attemptEvent, Event.regenAttempt cfg.regenTarget,
              Event.fileWrite cfg.writePath c])
            (a + 1) hsum2 hn
          exact ⟨e2, h1, by omega, by omega⟩
      · obtain ⟨e2, h1, h2, h3⟩ := ih (rc + 1) files
          (trace ++ [cfg.attemptEvent, Event.regenAttempt cfg.regenTarget])
          (a + 1) hsum2 hn
        exact ⟨e2, h1, by omega, by omega⟩

/-- The server-start loop run_website_in_sandbox selects after a successful
install phase, applied to the files and trace that the install phase produced. -/
def srv (env : RunEnv) (p : Bool) (files : Files) : LoopResult :=
  if p then
    gunicornLoop env max_retries 0 (installLoop env max_retries 0 files [] 0).files
      (installLoop env max_retries 0 files [] 0).trace 0
  else
    flaskLoop env max_retries 0 (installLoop env max_retries 0 files [] 0).files
      (installLoop env max_retries 0 files [] 0).trace 0

lemma run_eq_error (env : RunEnv) (p : Bool) (files : Files) (e : String)
    (hout : (installLoop env max_retries 0 files [] 0).outcome = Except.error e) :
    run_website_in_sandbox env p files =
      { files := (installLoop env max_retries 0 files [] 0).files,
        trace := (installLoop env max_retries 0 files [] 0).trace,
        installOk := false,
        installAttempts := (installLoop env max_retries 0 files [] 0).attempts,
        serverAttempts := 0,
        outcome := Except.error e } := by
  simp only [run_website_in_sandbox, hout]

lemma run_eq_ok (env : RunEnv) (p : Bool) (files : Files)
    (hout : (installLoop env max_retries 0 files [] 0).outcome = Except.ok ()) :
    run_website_in_sandbox env p files =
      { files := (srv env p files).files,
        trace := (srv env p files).trace,
        installOk := true,
        installAttempts := (installLoop env max_retries 0 files [] 0).attempts,
        serverAttempts := (srv env p files).attempts,
        outcome := (srv env p files).outcome } := by
  simp only [run_website_in_sandbox, srv, hout]

lemma installLoop_events (env : RunEnv) (fuel rc : Nat) (files : Files)
    (trace : List Event) (a : Nat) :
    ∀ ev ∈ (installLoop env fuel rc files trace a).trace,
      ev ∈ trace ∨ ev = Event.installAttempt ∨
        ev = Event.regenAttempt "requirements.txt" ∨
        ∃ c err f0, ev = Event.fileWrite "/home/user/requirements.txt" c ∧
          c ≠ "" ∧ env.regen "requirements.txt" err f0 = some c := by
  intro ev hev
  exact retryLoop_trace_events env.installResult env.regen
    ⟨Event.installAttempt, "requirements.txt", "/home/user/requirements.txt"⟩
    fuel rc files trace a ev hev

lemma gunicornLoop_events (env : RunEnv) (fuel rc : Nat) (files : Files)
    (trace : List Event) (a : Nat) :
    ∀ ev ∈ (gunicornLoop env fuel rc files trace a).trace,
      ev ∈ trace ∨ ev = Event.gunicornStartAttempt ∨
        ev = Event.regenAttempt "app.py" ∨
        ∃ c err f0, ev = Event.fileWrite "/home/user/app.py" c ∧
          c ≠ "" ∧ env.regen "app.py" err f0 = some c := by
  intro ev hev
  exact retryLoop_trace_events env.gunicornStartResult env.regen
    ⟨Event.gunicornStartAttempt, "app.py", "/home/user/app.py"⟩
    fuel rc files trace a ev hev

lemma flaskLoop_events (env : RunEnv) (fuel rc : Nat) (files : Files)
    (trace : List Event) (a : Nat) :
    ∀ ev ∈ (flaskLoop env fuel rc files trace a).trace,
      ev ∈ trace ∨ ev = Event.flaskStartAttempt ∨
        ev = Event.regenAttempt "app.py" ∨
        ∃ c err f0, ev = Event.fileWrite "/home/user/app.py" c ∧
          c ≠ "" ∧ env.regen "app.py" err f0 = some c := by
  intro ev hev
  exact retryLoop_trace_events env.flaskStartResult env.regen
    ⟨Event.flaskStartAttempt, "app.py", "/home/user/app.py"⟩
    fuel rc files trace a ev hev

/-- C1: each retry loop of run_website_in_sandbox (requirements installation,
and server startup in either mode) performs at most 3 attempts, and when every
attempt of a loop fails the loop makes exactly 3 attempts, re-raises the error,
and regeneration is attempted exactly twice (never after the third failure).
Termination within the budget holds because each loop is a total function with
attempt count bounded by 3. -/
theorem c1_retry_budget (env : RunEnv) (public_access : Bool) (files : Files) :
    (run_website_in_sandbox env public_access files).installAttempts ≤ 3 ∧
    (run_website_in_sandbox env public_access files).serverAttempts ≤ 3 ∧
    ((∀ k f, env.installResult k f ≠ none) →
      ∃ e, (installLoop env max_retries 0 files [] 0).outcome = Except.error e ∧
        (installLoop env max_retries 0 files [] 0).attempts = 3 ∧
        regenCount (installLoop env max_retries 0 files [] 0).trace = 2) ∧
    ((∀ k f, env.gunicornStartResult k f ≠ none) → ∀ files0 trace0,
      ∃ e, (gunicornLoop env max_retries 0 files0 trace0 0).outcome = Except.error e ∧
        (gunicornLoop env max_retries 0 files0 trace0 0).attempts = 3 ∧
        regenCount (gunicornLoop env max_retries 0 files0 trace0 0).trace =
          regenCount trace0 + 2) ∧
    ((∀ k f, env.flaskStartResult k f ≠ none) → ∀ files0 trace0,
      ∃ e, (flaskLoop env max_retries 0 files0 trace0 0).outcome = Except.error e ∧
        (flaskLoop env max_retries 0 files0 trace0 0).attempts = 3 ∧
        regenCount (flaskLoop env max_retries 0 files0 trace0 0).trace =
          regenCount trace0 + 2) := by
  have hinstR : (installLoop env max_retries 0 files [] 0).attempts ≤ 3 :=
    retryLoop_attempts_le env.installResult env.regen _ max_retries 0 files [] 0
  refine ⟨?_, ?_, ?_, ?_, ?_⟩
  · cases hout : (installLoop env max_retries 0 files [] 0).outcome with
    | error e =>
      rw [run_eq_error env public_access files e hout]
      exact hinstR
    | ok u =>
      cases u
      rw [run_eq_ok env public_access files hout]
      exact hinstR
  · cases hout : (installLoop env max_retries 0 files [] 0).outcome with
    | error e =>
      rw [run_eq_error env public_access files e hout]
      exact Nat.zero_le 3
    | ok u =>
      cases u
      rw [run_eq_ok env public_access files hout]
      unfold srv
      split
      · exact retryLoop_attempts_le env.gunicornStartResult env.regen _
          max_retries 0 _ _ 0
      · exact retryLoop_attempts_le env.flaskStartResult env.regen _
          max_retries 0 _ _ 0
  · intro H
    obtain ⟨e, h1, h2, h3⟩ := retryLoop_all_fail env.installResult env.regen
      ⟨Event.installAttempt, "requirements.txt", "/home/user/requirements.txt"⟩
      H rfl max_retries 0 files [] 0 rfl (by decide)
    exact ⟨e, h1, h2, by simpa [regenCount] using h3⟩
  · intro H files0 trace0
    obtain ⟨e, h1, h2, h3⟩ := retryLoop_all_fail env.gunicornStartResult env.regen
      ⟨Event.gunicornStartAttempt, "app.py", "/home/user/app.py"⟩
      H rfl max_retries 0 files0 trace0 0 rfl (by decide)
    exact ⟨e, h1, h2, by simpa using h3⟩
  · intro H files0 trace0
    obtain ⟨e, h1, h2, h3⟩ := retryLoop_all_fail env.flaskStartResult env.regen
      ⟨Event.flaskStartAttempt, "app.py", "/home/user/app.py"⟩
      H rfl max_retries 0 files0 trace0 0 rfl (by decide)
    exact ⟨e, h1, h2, by simpa using h3⟩

/-- An environment in which every external attempt fails and every
regeneration call fails. -/
def envAllFail : RunEnv where
  installResult := fun _ _ => some "E"
  gunicornStartResult := fun _ _ => some "E"
  flaskStartResult := fun _ _ => some "E"
  regen := fun _ _ _ => none

/-- C1 witness: under an environment whose pip install always fails, the
install loop makes exactly 3 attempts, re-raises, and regenerates twice. -/
theorem c1_retry_budget_witness :
    (run_website_in_sandbox envAllFail true []).installAttempts ≤ 3 ∧
    ∃ e, (installLoop envAllFail max_retries 0 [] [] 0).outcome = Except.error e ∧
      (installLoop envAllFail max_retries 0 [] [] 0).attempts = 3 ∧
      regenCount (installLoop envAllFail max_retries 0 [] [] 0).trace = 2 := by
  obtain ⟨h1, -, h3, -, -⟩ := c1_retry_budget envAllFail true []
  exact ⟨h1, h3 (fun k f h => Option.noConfusion h)⟩

/-- C3: exactly one of the two server-launch modes executes per call, selected
by public_access: a public call never makes a Flask development-server start
attempt, a non-public call never makes a gunicorn start attempt, the two kinds
of attempt never both appear in one trace, and whenever the install phase
succeeded the selected mode makes at least one start attempt. -/
theorem c3_exclusive_server_modes (env : RunEnv) (public_access : Bool)
    (files : Files) :
    (public_access = true →
      Event.flaskStartAttempt ∉ (run_website_in_sandbox env public_access files).trace) ∧
    (public_access = false →
      Event.gunicornStartAttempt ∉ (run_website_in_sandbox env public_access files).trace) ∧
    ¬(Event.gunicornStartAttempt ∈ (run_website_in_sandbox env public_access files).trace ∧
      Event.flaskStartAttempt ∈ (run_website_in_sandbox env public_access files).trace) ∧
    ((run_website_in_sandbox env public_access files).installOk = true →
      public_access = true →
      Event.gunicornStartAttempt ∈ (run_website_in_sandbox env public_access files).trace) ∧
    ((run_website_in_sandbox env public_access files).installOk = true →
      public_access = false →
      Event.flaskStartAttempt ∉ [] →
      Event.flaskStartAttempt ∈ (run_website_in_sandbox env public_access files).trace) := by
  have no_flask : public_access = true →
      Event.flaskStartAttempt ∉ (run_website_in_sandbox env public_access files).trace := by
    intro hp hmem
    subst hp
    cases hout : (installLoop env max_retries 0 files [] 0).outcome with
    | error e =>
      rw [run_eq_error env true files e hout] at hmem
      rcases installLoop_events env max_retries 0 files [] 0 _ hmem with
        h | h | h | ⟨c, err, f0, h, -, -⟩ <;> simp at h
    | ok u =>
      cases u
      rw [run_eq_ok env true files hout] at hmem
      simp only [srv, if_pos] at hmem
      rcases gunicornLoop_events env max_retries 0 _ _ 0 _ hmem with
        h | h | h | ⟨c, err, f0, h, -, -⟩
      · rcases installLoop_events env max_retries 0 files [] 0 _ h with
          h2 | h2 | h2 | ⟨c, err, f0, h2, -, -⟩ <;> simp at h2
      · simp at h
      · simp at h
      · simp at h
  have no_gunicorn : public_access = false →
      Event.gunicornStartAttempt ∉ (run_website_in_sandbox env public_access files).trace := by
    intro hp hmem
    subst hp
    cases hout : (installLoop env max_retries 0 files [] 0).outcome with
    | error e =>
      rw [run_eq_error env false files e hout] at hmem
      rcases installLoop_events env max_retries 0 files [] 0 _ hmem with
        h | h | h | ⟨c, err, f0, h, -, -⟩ <;> simp at h
    | ok u =>
      cases u
      rw [run_eq_ok env false files hout] at hmem
      simp only [srv, if_neg] at hmem
      rcases flaskLoop_events env max_retries 0 _ _ 0 _ hmem with
        h | h | h | ⟨c, err, f0, h, -, -⟩
      · rcases installLoop_events env max_retries 0 files [] 0 _ h with
          h2 | h2 | h2 | ⟨c, err, f0, h2, -, -⟩ <;> simp at h2
      · simp at h
      · simp at h
      · simp at h
  refine ⟨no_flask, no_gunicorn, ?_, ?_, ?_⟩
  · rintro ⟨hg, hf⟩
    cases public_access with
    | true => exact no_flask rfl hf
    | false => exact no_gunicorn rfl hg
  · intro hok hp
    subst hp
    cases hout : (installLoop env max_retries 0 files [] 0).outcome with
    | error e =>
      rw [run_eq_error env true files e hout] at hok
      exact absurd hok (by simp)
    | ok u =>
      cases u
      rw [run_eq_ok env true files hout]
      simp only [srv, if_pos]
      exact retryLoop_attempt_mem env.gunicornStartResult env.regen
        ⟨Event.gunicornStartAttempt, "app.py", "/home/user/app.py"⟩
        max_retries 0 _ _ 0 (by decide) (by decide)
  · intro hok hp _
    subst hp
    cases hout : (installLoop env max_retries 0 files [] 0).outcome with
    | error e =>
      rw [run_eq_error env false files e hout] at hok
      exact absurd hok (by simp)
    | ok u =>
      cases u
      rw [run_eq_ok env false files hout]
      simp only [srv, if_neg]
      exact retryLoop_attempt_mem env.flaskStartResult env.regen
        ⟨Event.flaskStartAttempt, "app.py", "/home/user/app.py"⟩
        max_retries 0 _ _ 0 (by decide) (by decide)

/-- An environment in which every external attempt succeeds at once. -/
def envAllOk : RunEnv where
  installResult := fun _ _ => none
  gunicornStartResult := fun _ _ => none
  flaskStartResult := fun _ _ => none
  regen := fun _ _ _ => none

/-- C3 witness: a concrete public run makes a gunicorn start attempt and no
Flask start attempt. -/
theorem c3_exclusive_server_modes_witness :
    Event.flaskStartAttempt ∉ (run_website_in_sandbox envAllOk true []).trace ∧
    Event.gunicornStartAttempt ∈ (run_website_in_sandbox envAllOk true []).trace := by
  obtain ⟨h1, -, -, h4, -⟩ := c3_exclusive_server_modes envAllOk true []
  exact ⟨h1 rfl, h4 rfl rfl⟩

/-- C9: when regeneration fails (returns none because the completion call
raised) or yields an empty string, the sandbox files are left unchanged by
run_website_in_sandbox; in general a file write occurs only for non-empty
regenerated content, only at the requirements.txt or app.py path, and only
with content some regeneration call returned. -/
theorem c9_failed_regeneration_leaves_files (env : RunEnv) (public_access : Bool)
    (files : Files) :
    ((∀ n e f, env.regen n e f = none ∨ env.regen n e f = some "") →
      (run_website_in_sandbox env public_access files).files = files) ∧
    (∀ pth c, Event.fileWrite pth c ∈ (run_website_in_sandbox env public_access files).trace →
      c ≠ "" ∧ (pth = "/home/user/requirements.txt" ∨ pth = "/home/user/app.py") ∧
      ∃ name err f0, env.regen name err f0 = some c) := by
  constructor
  · intro hreg
    cases hout : (installLoop env max_retries 0 files [] 0).outcome with
    | error e =>
      rw [run_eq_error env public_access files e hout]
      exact retryLoop_files_unchanged env.installResult env.regen _ hreg
        max_retries 0 files [] 0
    | ok u =>
      cases u
      rw [run_eq_ok env public_access files hout]
      have hinst : (installLoop env max_retries 0 files [] 0).files = files :=
        retryLoop_files_unchanged env.installResult env.regen _ hreg
          max_retries 0 files [] 0
      unfold srv
      split
      · have hg := retryLoop_files_unchanged env.gunicornStartResult env.regen
          (⟨Event.gunicornStartAttempt, "app.py", "/home/user/app.py"⟩ : LoopCfg) hreg
          max_retries 0 (installLoop env max_retries 0 files [] 0).files
          (installLoop env max_retries 0 files [] 0).trace 0
        simpa [gunicornLoop, hinst] using hg
      · have hg := retryLoop_files_unchanged env.flaskStartResult env.regen
          (⟨Event.flaskStartAttempt, "app.py", "/home/user/app.py"⟩ : LoopCfg) hreg
          max_retries 0 (installLoop env max_retries 0 files [] 0).files
          (installLoop env max_retries 0 files [] 0).trace 0
        simpa [flaskLoop, hinst] using hg
  · intro pth c hmem
    have from_install : Event.fileWrite pth c ∈
        (installLoop env max_retries 0 files [] 0).trace →
        c ≠ "" ∧ (pth = "/home/user/requirements.txt" ∨ pth = "/home/user/app.py") ∧
        ∃ name err f0, env.regen name err f0 = some c := by
      intro h
      rcases installLoop_events env max_retries 0 files [] 0 _ h with
        h2 | h2 | h2 | ⟨c2, err, f0, h2, hc2, hr⟩
      · simp at h2
      · simp at h2
      · simp at h2
      · obtain ⟨rfl, rfl⟩ : pth = "/home/user/requirements.txt" ∧ c = c2 := by
          constructor <;> · injection h2 with hp hc
        exact ⟨hc2, Or.inl rfl, "requirements.txt", err, f0, hr⟩
    cases hout : (installLoop env max_retries 0 files [] 0).outcome with
    | error e =>
      rw [run_eq_error env public_access files e hout] at hmem
      exact from_install hmem
    | ok u =>
      cases u
      rw [run_eq_ok env public_access files hout] at hmem
      unfold srv at hmem
      split at hmem
      · rcases gunicornLoop_events env max_retries 0 _ _ 0 _ hmem with
          h2 | h2 | h2 | ⟨c2, err, f0, h2, hc2, hr⟩
        · exact from_install h2
        · simp at h2
        · simp at h2
        · obtain ⟨rfl, rfl⟩ : pth = "/home/user/app.py" ∧ c = c2 := by
            constructor <;> · injection h2 with hp hc
          exact ⟨hc2, Or.inr rfl, "app.py", err, f0, hr⟩
      · rcases flaskLoop_events env max_retries 0 _ _ 0 _ hmem with
          h2 | h2 | h2 | ⟨c2, err, f0, h2, hc2, hr⟩
        · exact from_install h2
        · simp at h2
        · simp at h2
        · obtain ⟨rfl, rfl⟩ : pth = "/home/user/app.py" ∧ c = c2 := by
            constructor <;> · injection h2 with hp hc
          exact ⟨hc2, Or.inr rfl, "app.py", err, f0, hr⟩

/-- C9 witness: with regeneration always failing, a concrete run leaves the
initial sandbox files untouched. -/
theorem c9_failed_regeneration_leaves_files_witness :
    (run_website_in_sandbox envAllFail false
      [("/home/user/app.py", "x")]).files = [("/home/user/app.py", "x")] :=
  (c9_failed_regeneration_leaves_files envAllFail false
    [("/home/user/app.py", "x")]).1 (fun _ _ _ => Or.inl rfl)

/-- Characters of a path that precede its last slash, or none when the path
has no slash. -/
def beforeLastSlash : List Char → Option (List Char)
  | [] => none
  | c :: cs =>
    match beforeLastSlash cs with
    | some rest => some (c :: rest)
    | none => if c == Char.ofNat 47 then some [] else none

/-- os.path.dirname for the relative file names of a manifest: everything
before the last slash, with trailing slashes stripped unless the head is all
slashes; the empty string when there is no slash. -/
def dirname (p : String) : String :=
  match beforeLastSlash p.data with
  | none => ""
  | some l =>
    let stripped := (l.reverse.dropWhile (fun c => c == Char.ofNat 47)).reverse
    if stripped.isEmpty then String.mk l else String.mk stripped

/-- The per-file loop of generate_website_in_sandbox, given the planned
manifest: gen is the generate_file_content oracle (none when the completion
call raised; the code also skips falsy empty content), mkdirOk tells whether
the mkdir -p command for a directory succeeds, and writeOk whether the
sandbox write for a file succeeds.  A file whose generation fails, whose
directory creation fails, or whose write fails is skipped and the loop moves
on; the sandbox (its file map) is returned regardless. -/
def generate_website_in_sandbox (gen : FileDescription → Option String)
    (mkdirOk : String → Bool) (writeOk : String → Bool)
    (manifest : List FileDescription) : Files :=
  manifest.foldl
    (fun files fd =>
      match gen fd with
      | none => files
      | some content =>
        if content = "" then files
        else if dirname fd.file_name ≠ "" ∧ mkdirOk (dirname fd.file_name) = false then
          files
        else if writeOk fd.file_name then
          files_write files ("/home/user/" ++ fd.file_name) content
        else files)
    []

lemma mem_files_write (fs : Files) (path content : String) (q : String × String)
    (hq : q ∈ files_write fs path content) :
    q ∈ fs ∨ q = (path, content) := by
  unfold files_write at hq
  split at hq
  · obtain ⟨x, hx, hxq⟩ := List.mem_map.mp hq
    by_cases hp : (x.1 == path) = true
    · rw [if_pos hp] at hxq
      exact Or.inr hxq.symm
    · rw [if_neg hp] at hxq
      exact Or.inl (hxq ▸ hx)
  · rcases List.mem_append.mp hq with h | h
    · exact Or.inl h
    · simp only [List.mem_singleton] at h
      exact Or.inr h

lemma generate_website_fold_mem (gen : FileDescription → Option String)
    (mkdirOk : String → Bool) (writeOk : String → Bool) :
    ∀ (manifest : List FileDescription) (acc : Files) (q : String × String),
      q ∈ manifest.foldl
        (fun files fd =>
          match gen fd with
          | none => files
          | some content =>
            if content = "" then files
            else if dirname fd.file_name ≠ "" ∧ mkdirOk (dirname fd.file_name) = false then
              files
            else if writeOk fd.file_name then
              files_write files ("/home/user/" ++ fd.file_name) content
            else files) acc →
      q ∈ acc ∨ ∃ fd ∈ manifest, q.1 = "/home/user/" ++ fd.file_name ∧
        gen fd = some q.2 ∧ q.2 ≠ "" := by
  intro manifest
  induction manifest with
  | nil =>
    intro acc q hq
    exact Or.inl hq
  | cons fd rest ih =>
    intro acc q hq
    simp only [List.foldl_cons] at hq
    rcases ih _ q hq with hacc | ⟨fd2, hfd2, h1, h2, h3⟩
    · revert hacc
      split
      · exact fun hacc => Or.inl hacc
      · rename_i content hgen
        split
        · exact fun hacc => Or.inl hacc
        · split
          · exact fun hacc => Or.inl hacc
          · split
            · intro hacc
              rcases mem_files_write _ _ _ q hacc with h | h
              · exact Or.inl h
              · refine Or.inr ⟨fd, List.mem_cons_self fd rest, ?_, ?_, ?_⟩
                · rw [h]
                · rw [h, hgen]
                · rw [h]
                  rename_i hcne _ _
                  exact hcne
            · exact fun hacc => Or.inl hacc
    · exact Or.inr ⟨fd2, List.mem_cons_of_mem fd hfd2, h1, h2, h3⟩

/-- C10: generate_website_in_sandbox does not fail when content generation
fails for an individual file: every file in the produced sandbox comes from a
manifest entry whose generation succeeded with non-empty content, a file whose
generation returned none or whose directory creation failed is skipped with
the loop simply continuing on the rest of the manifest, and when generation
fails for every file the function still returns a (then empty) sandbox. -/
theorem c10_per_file_failures_skipped (gen : FileDescription → Option String)
    (mkdirOk : String → Bool) (writeOk : String → Bool)
    (manifest : List FileDescription) :
    (∀ q ∈ generate_website_in_sandbox gen mkdirOk writeOk manifest,
      ∃ fd ∈ manifest, q.1 = "/home/user/" ++ fd.file_name ∧
        gen fd = some q.2 ∧ q.2 ≠ "") ∧
    (∀ fd rest, gen fd = none →
      generate_website_in_sandbox gen mkdirOk writeOk (fd :: rest) =
        generate_website_in_sandbox gen mkdirOk writeOk rest) ∧
    (∀ fd rest, dirname fd.file_name ≠ "" → mkdirOk (dirname fd.file_name) = false →
      generate_website_in_sandbox gen mkdirOk writeOk (fd :: rest) =
        generate_website_in_sandbox gen mkdirOk writeOk rest) ∧
    ((∀ fd ∈ manifest, gen fd = none) →
      generate_website_in_sandbox gen mkdirOk writeOk manifest = []) := by
  refine ⟨?_, ?_, ?_, ?_⟩
  · intro q hq
    rcases generate_website_fold_mem gen mkdirOk writeOk manifest [] q hq with h | h
    · simp at h
    · exact h
  · intro fd rest hgen
    unfold generate_website_in_sandbox
    simp only [List.foldl_cons, hgen]
  · intro fd rest hdir hmk
    unfold generate_website_in_sandbox
    simp only [List.foldl_cons]
    cases hgen : gen fd with
    | none => simp only [hgen]
    | some content =>
      simp only [hgen]
      by_cases hc : content = ""
      · simp [hc]
      · simp [hc, hdir, hmk]
  · intro hall
    unfold generate_website_in_sandbox
    induction manifest with
    | nil => rfl
    | cons fd rest ih =>
      simp only [List.foldl_cons, hall fd (List.mem_cons_self fd rest)]
      exact ih (fun g hg => hall g (List.mem_cons_of_mem fd hg))

/-- C10 witness: a concrete two-file manifest whose first generation fails
produces a sandbox holding only content for the second file. -/
theorem c10_per_file_failures_skipped_witness :
    generate_website_in_sandbox
        (fun fd => if fd.file_name = "app.py" then none else some "flask")
        (fun _ => true) (fun _ => true)
        [{ file_name := "app.py", description := "a" },
         { file_name := "requirements.txt", description := "r" }] =
      generate_website_in_sandbox
        (fun fd => if fd.file_name = "app.py" then none else some "flask")
        (fun _ => true) (fun _ => true)
        [{ file_name := "requirements.txt", description := "r" }] :=
  (c10_per_file_failures_skipped
      (fun fd => if fd.file_name = "app.py" then none else some "flask")
      (fun _ => true) (fun _ => true)
      [{ file_name := "app.py", description := "a" },
       { file_name := "requirements.txt", description := "r" }]).2.1
    { file_name := "app.py", description := "a" }
    [{ file_name := "requirements.txt", description := "r" }] (by simp)

/-- A GitHub issue as used by build_website: its number and html_url. -/
structure Issue where
  number : Nat
  html_url : String
deriving Repr, DecidableEq

/-- Oracles for the external calls of build_website in main.py: repo_ok covers
parse_repo_url and get_repository raising, issue the create_issue result,
sandbox_ok whether generate_website_in_sandbox returned a sandbox, website_url
the run_website_in_sandbox result (keyed by the public_access flag it is
passed), and the remaining fields the github_utils steps. -/
structure BuildEnv where
  repo_ok : Bool
  issue : Option Issue
  sandbox_ok : Bool
  website_url : Bool → Option String
  clone_ok : Bool
  branch_ok : Bool
  commit_push_ok : Bool
  pr_url : Option String

/-- The externally visible steps build_website performs, in source order. -/
inductive BStep where
  | createIssue
  | genSandbox
  | runWebsite
  | cloneRepo
  | createBranch
  | copyFiles
  | commitPush
  | createPR
  | stopServer
deriving Repr, DecidableEq

/-- Position of each step in the source order of build_website. -/
def stepIndex : BStep → Nat
  | BStep.createIssue => 0
  | BStep.genSandbox => 1
  | BStep.runWebsite => 2
  | BStep.cloneRepo => 3
  | BStep.createBranch => 4
  | BStep.copyFiles => 5
  | BStep.commitPush => 6
  | BStep.createPR => 7
  | BStep.stopServer => 8

/-- The dict build_website returns. -/
structure BuildResult where
  success : Bool
  message : String
  issue_url : Option String := none
  pr_url : Option String := none
  website_url : Option String := none
deriving Repr, DecidableEq

/-- build_website of main.py, with the trace of steps it attempted: each step
runs only when every earlier step succeeded, each failure branch returns
success false with its message, and every failure after the website server
started also stops the server. -/
def build_website (env : BuildEnv) (public_access : Bool) :
    BuildResult × List BStep :=
  if env.repo_ok = false then
    ({ success := false, message := "Error: repository access failed" }, [])
  else
    match env.issue with
    | none =>
      ({ success := false, message := "Failed to create issue" },
       [BStep.createIssue])
    | some issue =>
      if env.sandbox_ok = false then
        ({ success := false, message := "Failed to generate website" },
         [BStep.createIssue, BStep.genSandbox])
      else
        match env.website_url public_access with
        | none =>
          ({ success := false, message := "Failed to run website" },
           [BStep.createIssue, BStep.genSandbox, BStep.runWebsite])
        | some url =>
          if env.clone_ok = false then
            ({ success := false, message := "Failed to clone repository" },
             [BStep.createIssue, BStep.genSandbox, BStep.runWebsite,
              BStep.cloneRepo, BStep.stopServer])
          else if env.branch_ok = false then
            ({ success := false, message := "Failed to create branch" },
             [BStep.createIssue, BStep.genSandbox, BStep.runWebsite,
              BStep.cloneRepo, BStep.createBranch, BStep.stopServer])
          else if env.commit_push_ok = false then
            ({ success := false, message := "Failed to commit and push changes" },
             [BStep.createIssue, BStep.genSandbox, BStep.runWebsite,
              BStep.cloneRepo, BStep.createBranch, BStep.copyFiles,
              BStep.commitPush, BStep.stopServer])
          else
            match env.pr_url with
            | none =>
              ({ success := false, message := "Failed to create pull request" },
               [BStep.createIssue, BStep.genSandbox, BStep.runWebsite,
                BStep.cloneRepo, BStep.createBranch, BStep.copyFiles,
                BStep.commitPush, BStep.createPR, BStep.stopServer])
            | some pr =>
              ({ success := true,
                 message := "Successfully created MVP website",
                 issue_url := some issue.html_url,
                 pr_url := some pr,
                 website_url := some url },
               [BStep.createIssue, BStep.genSandbox, BStep.runWebsite,
                BStep.cloneRepo, BStep.createBranch, BStep.copyFiles,
                BStep.commitPush, BStep.createPR])

/-- The request model of the API endpoint: repository URL, description, and a
visibility flag whose Pydantic default is False. -/
structure WebsiteRequest where
  repo_url : String
  website_description : String
  public_access : Bool := false
deriving Repr, DecidableEq

/-- The POST /build_website handler: it runs build_website on the request and
returns its result directly. -/
def api_build_website (env : BuildEnv) (req : WebsiteRequest) : BuildResult :=
  (build_website env req.public_access).1

/-- C7: the VCS publishing steps of build_website occur in source order
(clone, branch, copy files, commit-and-push, pull request), a pull request is
created only when cloning, branching and commit-and-push all succeeded, and
when the VCS phase was reached but cloning, branching or commit-and-push
failed, the website server is stopped, success is false, and no pull request
step runs. -/
theorem c7_vcs_publishing_order (env : BuildEnv) (public_access : Bool) :
    (build_website env public_access).2.Pairwise
      (fun a b => stepIndex a < stepIndex b) ∧
    (BStep.createPR ∈ (build_website env public_access).2 →
      env.clone_ok = true ∧ env.branch_ok = true ∧ env.commit_push_ok = true) ∧
    ((env.clone_ok = false ∨ env.branch_ok = false ∨ env.commit_push_ok = false) →
      BStep.cloneRepo ∈ (build_website env public_access).2 →
      BStep.stopServer ∈ (build_website env public_access).2 ∧
        (build_website env public_access).1.success = false ∧
        BStep.createPR ∉ (build_website env public_access).2) := by
  obtain ⟨ro, iss, so, wu, co, bo, cp, pr⟩ := env
  cases ro <;> rcases iss with _ | i <;> cases so <;>
    rcases hw : wu public_access with _ | u <;> cases co <;> cases bo <;>
    cases cp <;> rcases pr with _ | prv <;>
    simp [build_website, hw, stepIndex]

/-- C7 environment witness: every step of the pipeline succeeds except the
clone of the repository. -/
def buildEnvCloneFail : BuildEnv where
  repo_ok := true
  issue := some { number := 7, html_url := "https://issue" }
  sandbox_ok := true
  website_url := fun _ => some "https://site"
  clone_ok := false
  branch_ok := true
  commit_push_ok := true
  pr_url := some "https://pr"

/-- C7 witness: with a failing clone, the server is stopped, the result is a
failure, and no pull-request step runs. -/
theorem c7_vcs_publishing_order_witness :
    BStep.stopServer ∈ (build_website buildEnvCloneFail false).2 ∧
    (build_website buildEnvCloneFail false).1.success = false ∧
    BStep.createPR ∉ (build_website buildEnvCloneFail false).2 :=
  (c7_vcs_publishing_order buildEnvCloneFail false).2.2 (Or.inl rfl) (by decide)

/-- C8: the endpoint runs build_website on the request and returns its result,
the visibility flag defaults to false when a request omits it, a successful
result carries the issue URL, the pull-request URL and the running website
URL, and the pipeline succeeds whenever every step succeeds. -/
theorem c8_api_facade (env : BuildEnv) (req : WebsiteRequest) :
    api_build_website env req = (build_website env req.public_access).1 ∧
    (∀ ru wd,
      ({ repo_url := ru, website_description := wd } : WebsiteRequest).public_access
        = false) ∧
    ((api_build_website env req).success = true →
      ∃ i pr u, env.issue = some i ∧ env.pr_url = some pr ∧
        env.website_url req.public_access = some u ∧
        (api_build_website env req).issue_url = some i.html_url ∧
        (api_build_website env req).pr_url = some pr ∧
        (api_build_website env req).website_url = some u) ∧
    (env.repo_ok = true → env.sandbox_ok = true → env.clone_ok = true →
      env.branch_ok = true → env.commit_push_ok = true →
      env.issue.isSome = true → (env.website_url req.public_access).isSome = true →
      env.pr_url.isSome = true →
      (api_build_website env req).success = true) := by
  refine ⟨rfl, fun ru wd => rfl, ?_, ?_⟩
  · obtain ⟨ro, iss, so, wu, co, bo, cp, pr⟩ := env
    cases ro <;> rcases iss with _ | i <;> cases so <;>
      rcases hw : wu req.public_access with _ | u <;> cases co <;> cases bo <;>
      cases cp <;> rcases pr with _ | prv <;>
      simp [api_build_website, build_website, hw]
  · obtain ⟨ro, iss, so, wu, co, bo, cp, pr⟩ := env
    cases ro <;> rcases iss with _ | i <;> cases so <;>
      rcases hw : wu req.public_access with _ | u <;> cases co <;> cases bo <;>
      cases cp <;> rcases pr with _ | prv <;>
      simp [api_build_website, build_website, hw]

/-- C8 environment witness: every pipeline step succeeds. -/
def buildEnvAllOk : BuildEnv where
  repo_ok := true
  issue := some { number := 7, html_url := "https://issue" }
  sandbox_ok := true
  website_url := fun _ => some "https://site"
  clone_ok := true
  branch_ok := true
  commit_push_ok := true
  pr_url := some "https://pr"

/-- C8 witness: a concrete successful run returns the three URLs. -/
theorem c8_api_facade_witness :
    ∃ i pr u, buildEnvAllOk.issue = some i ∧ buildEnvAllOk.pr_url = some pr ∧
      buildEnvAllOk.website_url false = some u ∧
      (api_build_website buildEnvAllOk
        { repo_url := "https://github.com/o/r", website_description := "d" }).issue_url
        = some i.html_url ∧
      (api_build_website buildEnvAllOk
        { repo_url := "https://github.com/o/r", website_description := "d" }).pr_url
        = some pr ∧
      (api_build_website buildEnvAllOk
        { repo_url := "https://github.com/o/r", website_description := "d" }).website_url
        = some u :=
  (c8_api_facade buildEnvAllOk
    { repo_url := "https://github.com/o/r", website_description := "d" }).2.2.1
    (by decide)

end DeployBot
